import Mathlib

/-!
Shallow embedding of the motorsport session manager from
`src/Unit Test/Unit Test.cpp`.

Modelling conventions:
* C++ `double` values are embedded as rationals (`ℚ`); the arithmetic in the
  program is exact on the inputs the specification talks about.
* The C++ `enum VehicleType { GT3 = 1, Formula, Rally }` has an integral
  underlying type, and `static_cast<VehicleType>(n)` can produce values outside
  the three named constants, so the type is embedded as `Int` together with the
  three named constants.
* The class `MotorsportManager` stores a fixed array `Session sessions[5]` plus
  an `int sessionCount`; array slots at indices `≥ sessionCount` are never read
  by any member function, so the state is embedded as the list of the stored
  sessions (in insertion order), with `sessionCount` equal to its length.
* Member functions that mutate the object (`addSession`) are embedded as
  functions returning the C++ return value paired with the updated state; const
  member functions take the state and return their value.
-/

/-- Underlying type of the C++ `enum VehicleType`; out-of-range values are
representable, exactly as with a C++ enum produced by `static_cast`. -/
abbrev VehicleType := Int

/-- Enum constant `GT3 = 1`. -/
def GT3 : VehicleType := 1

/-- Enum constant `Formula` (value 2). -/
def Formula : VehicleType := 2

/-- Enum constant `Rally` (value 3). -/
def Rally : VehicleType := 3

/-- The C++ `struct Session`: driver name, track name, vehicle type and an
array `double lapTimes[3]` of exactly three lap times. -/
structure Session where
  driverName : String
  trackName : String
  vehicle : VehicleType
  lapTimes : Fin 3 → ℚ

/-- The constant `MotorsportManager::MAX_SESSIONS = 5` (a C++ `int`). -/
def MAX_SESSIONS : Int := 5

/-- State of a `MotorsportManager` object: the stored sessions in insertion
order.  `sessionCount` is the length of this list. -/
structure MotorsportManager where
  sessions : List Session

/-- The constructor `MotorsportManager()`: sets `sessionCount = 0`, i.e. no
stored sessions. -/
def MotorsportManager.init : MotorsportManager := ⟨[]⟩

/-- Member `getSessionCount() const`: returns the C++ `int sessionCount`. -/
def MotorsportManager.getSessionCount (m : MotorsportManager) : Int :=
  m.sessions.length

/-- Member `addSession(const Session&)`: if `sessionCount >= MAX_SESSIONS`
return `false` leaving the object unchanged; otherwise copy the session into
the next slot, increment `sessionCount` and return `true`.  The result is the
returned `bool` paired with the post-state. -/
def MotorsportManager.addSession (m : MotorsportManager) (s : Session) :
    Bool × MotorsportManager :=
  if m.getSessionCount ≥ MAX_SESSIONS then (false, m)
  else (true, ⟨m.sessions ++ [s]⟩)

/-- Member `calculateAverageLap(const Session&) const`: starts `total = 0.0`,
adds the three lap times in order, and divides by `3.0`.  The method reads no
member state (it is const and never touches `sessions`/`sessionCount`), which
the embedding reflects by ignoring `m`. -/
def MotorsportManager.calculateAverageLap (_m : MotorsportManager)
    (s : Session) : ℚ :=
  (0 + s.lapTimes 0 + s.lapTimes 1 + s.lapTimes 2) / 3

/-- Member `calculateOverallAverage() const`: returns `0.0` when
`sessionCount == 0`; otherwise sums the three lap times of every stored
session (counting the laps in `lapCount`, which ends at `3 * sessionCount`)
and divides the total by the lap count. -/
def MotorsportManager.calculateOverallAverage (m : MotorsportManager) : ℚ :=
  if m.getSessionCount = 0 then 0
  else
    let total : ℚ :=
      (m.sessions.map (fun s => 0 + s.lapTimes 0 + s.lapTimes 1 + s.lapTimes 2)).sum
    let lapCount : Int := 3 * m.sessions.length
    total / (lapCount : ℚ)

/-- Member `getBaseLapTime(VehicleType) const`: `GT3 → 95.0`,
`Formula → 70.0`, anything else (including `Rally`) falls into the final
`else` branch and yields `120.0`. -/
def MotorsportManager.getBaseLapTime (_m : MotorsportManager)
    (vehicle : VehicleType) : ℚ :=
  if vehicle = GT3 then 95
  else if vehicle = Formula then 70
  else 120

/-- Sequencing helper: perform `addSession` once per element of `ss` in order,
collecting the returned booleans and threading the state.  This is exactly a
caller-side loop of `addSession` calls, as in the capacity unit test. -/
def MotorsportManager.addMany (m : MotorsportManager) (ss : List Session) :
    List Bool × MotorsportManager :=
  match ss with
  | [] => ([], m)
  | s :: rest =>
      let step := m.addSession s
      let tail := step.2.addMany rest
      (step.1 :: tail.1, tail.2)

/-- Reachable states of a `MotorsportManager` object: the freshly constructed
state, closed under the only mutating operation, `addSession`.  All other
member functions are const. -/
inductive Reachable : MotorsportManager → Prop where
  | init : Reachable MotorsportManager.init
  | add (m : MotorsportManager) (s : Session) :
      Reachable m → Reachable (m.addSession s).2

/-- Sample session used to instantiate hypotheses at concrete inputs. -/
def sampleSession : Session :=
  ⟨"A", "B", GT3, ![70, 71, 69]⟩

/-- A store holding five copies of the sample session (at capacity). -/
def fullStore : MotorsportManager :=
  ⟨List.replicate 5 sampleSession⟩

/-- A store holding exactly one sample session. -/
def oneStore : MotorsportManager := ⟨[sampleSession]⟩

/-- A session whose three lap times are all zero. -/
def zeroSession : Session := ⟨"Z", "Z", GT3, fun _ => 0⟩

/-- C9: a freshly constructed store is empty: immediately after construction,
`getSessionCount()` returns 0. -/
theorem init_getSessionCount : MotorsportManager.init.getSessionCount = 0 := rfl

/-- C3: on a store with count 0, `calculateOverallAverage()` returns exactly
`0.0` (a defined value, not an error). -/
theorem calculateOverallAverage_empty (m : MotorsportManager)
    (h : m.getSessionCount = 0) : m.calculateOverallAverage = 0 := by
  unfold MotorsportManager.calculateOverallAverage
  rw [if_pos h]

/-- Witness for C3 at the freshly constructed store. -/
theorem calculateOverallAverage_empty_witness :
    MotorsportManager.init.getSessionCount = 0 ∧
    MotorsportManager.init.calculateOverallAverage = 0 :=
  ⟨rfl, calculateOverallAverage_empty MotorsportManager.init rfl⟩

/-- C4: for every session with lap times `a, b, c`, `calculateAverageLap`
returns exactly `(a + b + c) / 3.0`; in particular all-zero lap times give
`0.0`. -/
theorem calculateAverageLap_spec (m : MotorsportManager) (s : Session) :
    m.calculateAverageLap s = (s.lapTimes 0 + s.lapTimes 1 + s.lapTimes 2) / 3 ∧
    ((∀ i : Fin 3, s.lapTimes i = 0) → m.calculateAverageLap s = 0) := by
  constructor
  · simp [MotorsportManager.calculateAverageLap]
  · intro h
    simp [MotorsportManager.calculateAverageLap, h]

/-- Witness for C4 at the all-zero session. -/
theorem calculateAverageLap_spec_witness :
    MotorsportManager.init.calculateAverageLap zeroSession
      = (zeroSession.lapTimes 0 + zeroSession.lapTimes 1 + zeroSession.lapTimes 2) / 3 ∧
    MotorsportManager.init.calculateAverageLap zeroSession = 0 :=
  ⟨(calculateAverageLap_spec MotorsportManager.init zeroSession).1,
   (calculateAverageLap_spec MotorsportManager.init zeroSession).2 (fun _ => rfl)⟩

/-- C5: `getBaseLapTime` is total on vehicle values: `GT3 → 95.0`,
`Formula → 70.0`, and every other value — `Rally` and any out-of-range value
alike — yields `120.0`. -/
theorem getBaseLapTime_spec (m : MotorsportManager) (v : VehicleType) :
    (v = GT3 → m.getBaseLapTime v = 95) ∧
    (v = Formula → m.getBaseLapTime v = 70) ∧
    (v ≠ GT3 → v ≠ Formula → m.getBaseLapTime v = 120) ∧
    m.getBaseLapTime Rally = 120 := by
  unfold MotorsportManager.getBaseLapTime
  refine ⟨fun h => ?_, fun h => ?_, fun h1 h2 => ?_, ?_⟩
  · rw [if_pos h]
  · have hne : v ≠ GT3 := by rw [h]; decide
    rw [if_neg hne, if_pos h]
  · rw [if_neg h1, if_neg h2]
  · rw [if_neg (by decide : Rally ≠ GT3), if_neg (by decide : Rally ≠ Formula)]

/-- Witness for C5 at the three enum constants and the out-of-range value 4. -/
theorem getBaseLapTime_spec_witness :
    MotorsportManager.init.getBaseLapTime GT3 = 95 ∧
    MotorsportManager.init.getBaseLapTime Formula = 70 ∧
    MotorsportManager.init.getBaseLapTime 4 = 120 ∧
    MotorsportManager.init.getBaseLapTime Rally = 120 :=
  ⟨(getBaseLapTime_spec MotorsportManager.init GT3).1 rfl,
   (getBaseLapTime_spec MotorsportManager.init Formula).2.1 rfl,
   (getBaseLapTime_spec MotorsportManager.init 4).2.2.1 (by decide) (by decide),
   (getBaseLapTime_spec MotorsportManager.init Rally).2.2.2⟩

/-- C8: `calculateAverageLap` is deterministic and stateless with respect to
the store: its result does not depend on which store it is called on or on the
store's contents. -/
theorem calculateAverageLap_stateless (m₁ m₂ : MotorsportManager) (s : Session) :
    m₁.calculateAverageLap s = m₂.calculateAverageLap s := rfl

/-- Adding a batch of sessions that fits within the remaining capacity
succeeds at every step and appends the batch in order. -/
theorem addMany_within_capacity (ss : List Session) :
    ∀ m : MotorsportManager, m.sessions.length + ss.length ≤ 5 →
      (m.addMany ss).1 = List.replicate ss.length true ∧
      (m.addMany ss).2.sessions = m.sessions ++ ss := by
  induction ss with
  | nil =>
    intro m _
    simp [MotorsportManager.addMany]
  | cons a t ih =>
    intro m h
    have hc : ¬ (m.getSessionCount ≥ MAX_SESSIONS) := by
      unfold MotorsportManager.getSessionCount MAX_SESSIONS
      simp only [List.length_cons] at h
      omega
    have htail := ih ⟨m.sessions ++ [a]⟩
      (by simp only [List.length_append, List.length_cons,
            List.length_nil] at h ⊢; omega)
    simp [MotorsportManager.addMany, MotorsportManager.addSession, hc, htail.1,
      htail.2, List.replicate_succ]

/-- C1: at count 5 `addSession` rejects and leaves the store unchanged; below
5 it appends a copy of the session, increments the count by one, and returns
`true`; consequently five adds to a fresh store all return `true` and a sixth
call returns `false` with the count remaining 5. -/
theorem addSession_capacity_spec (m : MotorsportManager) (s : Session) :
    (m.getSessionCount = 5 → m.addSession s = (false, m)) ∧
    (m.getSessionCount < 5 →
      m.addSession s = (true, ⟨m.sessions ++ [s]⟩) ∧
      ((m.addSession s).2).getSessionCount = m.getSessionCount + 1) ∧
    (∀ ss : List Session, ss.length = 5 →
      (MotorsportManager.init.addMany ss).1 = [true, true, true, true, true] ∧
      ((MotorsportManager.init.addMany ss).2).addSession s
        = (false, (MotorsportManager.init.addMany ss).2) ∧
      ((MotorsportManager.init.addMany ss).2).getSessionCount = 5) := by
  refine ⟨fun h => ?_, fun h => ?_, fun ss hss => ?_⟩
  · unfold MotorsportManager.addSession
    rw [if_pos (by rw [h]; decide)]
  · have hc : ¬ (m.getSessionCount ≥ MAX_SESSIONS) := by
      unfold MAX_SESSIONS
      omega
    refine ⟨?_, ?_⟩
    · unfold MotorsportManager.addSession
      rw [if_neg hc]
    · simp only [MotorsportManager.addSession, if_neg hc]
      unfold MotorsportManager.getSessionCount
      simp only [List.length_append, List.length_singleton]
      push_cast
      ring
  · obtain ⟨h1, h2⟩ := addMany_within_capacity ss MotorsportManager.init
      (by simp [MotorsportManager.init, hss])
    have hcount : ((MotorsportManager.init.addMany ss).2).getSessionCount = 5 := by
      unfold MotorsportManager.getSessionCount
      rw [h2]
      simp [MotorsportManager.init, hss]
    refine ⟨?_, ?_, hcount⟩
    · rw [h1, hss]
      rfl
    · unfold MotorsportManager.addSession
      rw [if_pos (by rw [hcount]; decide)]

/-- Witness for C1: the full store rejects, the fresh store accepts, and a
batch of five into a fresh store succeeds with the sixth rejected. -/
theorem addSession_capacity_spec_witness :
    fullStore.addSession sampleSession = (false, fullStore) ∧
    (MotorsportManager.init.addSession sampleSession
        = (true, ⟨MotorsportManager.init.sessions ++ [sampleSession]⟩) ∧
      ((MotorsportManager.init.addSession sampleSession).2).getSessionCount
        = MotorsportManager.init.getSessionCount + 1) ∧
    ((MotorsportManager.init.addMany (List.replicate 5 sampleSession)).1
        = [true, true, true, true, true] ∧
      ((MotorsportManager.init.addMany (List.replicate 5 sampleSession)).2).addSession
          sampleSession
        = (false, (MotorsportManager.init.addMany (List.replicate 5 sampleSession)).2) ∧
      ((MotorsportManager.init.addMany (List.replicate 5 sampleSession)).2).getSessionCount
        = 5) :=
  ⟨(addSession_capacity_spec fullStore sampleSession).1 (by decide),
   (addSession_capacity_spec MotorsportManager.init sampleSession).2.1 (by decide),
   (addSession_capacity_spec MotorsportManager.init sampleSession).2.2
     (List.replicate 5 sampleSession) (by decide)⟩

/-- C6: in every reachable store state the count is between 0 and 5, and
`getSessionCount` reports exactly the number of stored sessions (it reads the
state and returns the count, modifying nothing). -/
theorem getSessionCount_invariant (m : MotorsportManager) (h : Reachable m) :
    0 ≤ m.getSessionCount ∧ m.getSessionCount ≤ 5 ∧
    m.getSessionCount = (m.sessions.length : Int) := by
  induction h with
  | init => exact ⟨by decide, by decide, rfl⟩
  | add m s _ ih =>
    obtain ⟨ih0, ih5, _⟩ := ih
    by_cases hc : m.getSessionCount ≥ MAX_SESSIONS
    · simp only [MotorsportManager.addSession, if_pos hc]
      exact ⟨ih0, ih5, rfl⟩
    · simp only [MotorsportManager.addSession, if_neg hc]
      refine ⟨?_, ?_, rfl⟩ <;>
        unfold MotorsportManager.getSessionCount MAX_SESSIONS at *
      · omega
      · simp only [List.length_append, List.length_singleton]
        push_cast at hc ⊢
        omega

/-- Witness for C6 at the freshly constructed (reachable) store. -/
theorem getSessionCount_invariant_witness :
    0 ≤ MotorsportManager.init.getSessionCount ∧
    MotorsportManager.init.getSessionCount ≤ 5 ∧
    MotorsportManager.init.getSessionCount
      = (MotorsportManager.init.sessions.length : Int) :=
  getSessionCount_invariant MotorsportManager.init Reachable.init

/-- C7: `addSession` never shrinks, reorders or mutates the stored sessions:
the previous contents remain an unchanged prefix of the post-state, and a
successful call changes the store only by appending the new session at the
end. -/
theorem addSession_frame (m : MotorsportManager) (s : Session) :
    m.sessions.length ≤ ((m.addSession s).2).sessions.length ∧
    ((m.addSession s).2).sessions.take m.sessions.length = m.sessions ∧
    ((m.addSession s).1 = true →
      ((m.addSession s).2).sessions = m.sessions ++ [s]) := by
  by_cases hc : m.getSessionCount ≥ MAX_SESSIONS
  · simp [MotorsportManager.addSession, if_pos hc]
  · simp [MotorsportManager.addSession, if_neg hc]

/-- Witness for C7 at the fresh store, where the call succeeds. -/
theorem addSession_frame_witness :
    MotorsportManager.init.sessions.length
      ≤ ((MotorsportManager.init.addSession sampleSession).2).sessions.length ∧
    ((MotorsportManager.init.addSession sampleSession).2).sessions.take
        MotorsportManager.init.sessions.length
      = MotorsportManager.init.sessions ∧
    ((MotorsportManager.init.addSession sampleSession).2).sessions
      = MotorsportManager.init.sessions ++ [sampleSession] :=
  ⟨(addSession_frame MotorsportManager.init sampleSession).1,
   (addSession_frame MotorsportManager.init sampleSession).2.1,
   (addSession_frame MotorsportManager.init sampleSession).2.2 rfl⟩

/-- Summing a list of values each divided by a constant equals the sum of the
list divided by that constant. -/
theorem sum_map_div {α : Type} (l : List α) (f : α → ℚ) (c : ℚ) :
    (l.map fun x => f x / c).sum = (l.map f).sum / c := by
  induction l with
  | nil => simp
  | cons a t ih => simp [ih, add_div]

/-- C2: with at least one stored session, `calculateOverallAverage` returns
the sum of all `3 × count` lap times of all stored sessions divided by
`3 × count`. -/
theorem calculateOverallAverage_spec (m : MotorsportManager)
    (h : 1 ≤ m.getSessionCount) :
    m.calculateOverallAverage =
      ((m.sessions.map fun s => [s.lapTimes 0, s.lapTimes 1, s.lapTimes 2]).flatten).sum
        / (3 * (m.getSessionCount : ℚ)) := by
  have hne : ¬ m.getSessionCount = 0 := by omega
  unfold MotorsportManager.calculateOverallAverage
  rw [if_neg hne]
  rw [List.sum_flatten, List.map_map]
  have hmap : (List.sum ∘ fun s : Session => [s.lapTimes 0, s.lapTimes 1, s.lapTimes 2])
      = fun s : Session => 0 + s.lapTimes 0 + s.lapTimes 1 + s.lapTimes 2 := by
    funext s
    simp [Function.comp]
    ring
  rw [hmap]
  unfold MotorsportManager.getSessionCount
  push_cast
  ring

/-- Witness for C2 at a store holding one session. -/
theorem calculateOverallAverage_spec_witness :
    (1 : Int) ≤ oneStore.getSessionCount ∧
    oneStore.calculateOverallAverage =
      ((oneStore.sessions.map fun s =>
          [s.lapTimes 0, s.lapTimes 1, s.lapTimes 2]).flatten).sum
        / (3 * (oneStore.getSessionCount : ℚ)) :=
  ⟨by decide, calculateOverallAverage_spec oneStore (by decide)⟩

/-- C10: with at least one stored session, the overall average equals the
arithmetic mean of the per-session averages, since every session contributes
exactly three lap times. -/
theorem overallAverage_eq_mean_of_sessionAverages (m : MotorsportManager)
    (h : 1 ≤ m.getSessionCount) :
    m.calculateOverallAverage =
      (m.sessions.map fun s => m.calculateAverageLap s).sum
        / (m.getSessionCount : ℚ) := by
  have hne : ¬ m.getSessionCount = 0 := by omega
  unfold MotorsportManager.calculateOverallAverage
    MotorsportManager.calculateAverageLap
  rw [if_neg hne]
  rw [sum_map_div m.sessions
    (fun s => 0 + s.lapTimes 0 + s.lapTimes 1 + s.lapTimes 2) 3]
  rw [div_div]
  unfold MotorsportManager.getSessionCount
  push_cast
  ring

/-- Witness for C10 at a store holding one session. -/
theorem overallAverage_eq_mean_of_sessionAverages_witness :
    (1 : Int) ≤ oneStore.getSessionCount ∧
    oneStore.calculateOverallAverage =
      (oneStore.sessions.map fun s => oneStore.calculateAverageLap s).sum
        / (oneStore.getSessionCount : ℚ) :=
  ⟨by decide, overallAverage_eq_mean_of_sessionAverages oneStore (by decide)⟩
